import Mathlib

/-!
Verification development for the `appapi` Go client library.

The repository ships the test files (`suma_test.go`, `msapi_test.go`), the
type declarations (`type.go`) and the configuration loader (`config.go`);
the production bodies of the Suse-Manager client (`isSystemInNetwork`,
`SumaLogin`, `sumaGetSystemID`, `SumaAddSystem`, `sumaRemoveSystemGroup`,
`SumaAddUser`, `SumaRemoveUser`) and of the Meshstack client
(`MsDeleteBuildingBlock`) are not part of the available sources.  Those
functions are therefore modelled here from the specification (spec.md
sections 4.1-4.5, 6, 7), with the effectful boundary (HTTP transport, JSON
decoding, the swappable dependency bindings that the tests mock) made
explicit as parameters, following the way the repository's own tests
substitute them.
-/

/-- One parsed IPv4 address, as four decimal octets.  A value produced by
`parseIPv4` always has all four fields at most 255. -/
structure IPv4 where
  a : Nat
  b : Nat
  c : Nat
  d : Nat
deriving DecidableEq, Repr

/-- Splits a character list at every `'.'` (the separators are dropped);
structural-recursion counterpart of splitting a string on the dot, so that
the kernel can evaluate it. -/
def splitOnDot : List Char → List (List Char)
  | [] => [[]]
  | ch :: rest =>
    let r := splitOnDot rest
    if ch == '.' then [] :: r
    else
      match r with
      | [] => [[ch]]
      | g :: gs => (ch :: g) :: gs

/-- Reads a nonempty all-decimal-digit character list as a number. -/
def decDigits? : List Char → Option Nat
  | [] => none
  | cs =>
    cs.foldl
      (fun acc ch =>
        match acc with
        | none => none
        | some n => if ch.isDigit then some (n * 10 + (ch.toNat - 48)) else none)
      (some 0)

/-- One dotted-quad field: a nonempty run of decimal digits whose value is
at most 255. -/
def parseOctet (cs : List Char) : Option Nat :=
  match decDigits? cs with
  | none => none
  | some n => if n ≤ 255 then some n else none

/-- Modelled from the spec: the IPv4 half of the IP-literal parsing that the
missing production code performs (spec 4.1 "Parses `ip` and `network` as IP
address literals"): exactly four dot-separated decimal fields, each 0-255. -/
def parseIPv4 (s : String) : Option IPv4 :=
  match splitOnDot s.toList with
  | [p1, p2, p3, p4] =>
    match parseOctet p1, parseOctet p2, parseOctet p3, parseOctet p4 with
    | some a, some b, some c, some d => some ⟨a, b, c, d⟩
    | _, _, _, _ => none
  | _ => none

/-- Hexadecimal digit test, written out so the kernel can evaluate it. -/
def isHexDigitChar (c : Char) : Bool :=
  c.isDigit || (('a' ≤ c) && (c ≤ 'f')) || (('A' ≤ c) && (c ≤ 'F'))

/-- Modelled from the spec: a simplified recogniser for IPv6 literals (the
other address family of spec 4.1), enough to classify inputs by family: a
nonempty string of hexadecimal digits and colons that contains at least one
colon. -/
def isIPv6Literal (s : String) : Bool :=
  !s.toList.isEmpty && s.toList.contains ':' &&
    s.toList.all (fun c => isHexDigitChar c || c == ':')

/-- A parsed IP address literal: either a dotted-quad IPv4 address or an
IPv6 literal (whose exact bits the classful classifier never inspects). -/
inductive IPAddr where
  | v4 (q : IPv4)
  | v6
deriving DecidableEq, Repr

/-- The two address families. -/
inductive AddrFamily where
  | ipv4
  | ipv6
deriving DecidableEq, Repr

/-- The family of a parsed address. -/
def IPAddr.family : IPAddr → AddrFamily
  | .v4 _ => .ipv4
  | .v6 => .ipv6

/-- Modelled from the spec: parsing one IP address literal of either family
(spec 4.1).  A string that parses as a dotted quad is IPv4; otherwise a
string shaped like an IPv6 literal is IPv6; anything else fails to parse. -/
def parseAddr (s : String) : Option IPAddr :=
  match parseIPv4 s with
  | some q => some (.v4 q)
  | none => if isIPv6Literal s then some .v6 else none

/-- Modelled from the spec: the classful membership test at the heart of the
missing `isSystemInNetwork` (spec 4.1, glossary "Classful network
matching").  The mask is selected by the network address's first octet
using the conventional class defaults — first octet below 128: /8 (class
A); below 192: /16 (class B); otherwise /24 (class C policy, as common
library default-mask implementations do) — and membership is equality of
the masked octets. -/
def classfulMember (i n : IPv4) : Bool :=
  if n.a < 128 then i.a == n.a
  else if n.a < 192 then i.a == n.a && i.b == n.b
  else i.a == n.a && i.b == n.b && i.c == n.c

/-- Modelled from the spec: `isSystemInNetwork(ip, network)` (spec 4.1),
whose production body is not among the available sources.  Both strings are
parsed as IP address literals; the test fails closed (false) when either
fails to parse, when the families differ, or when either side is IPv6 (the
classful default masks exist only for IPv4); otherwise it is the classful
membership test.  Total by construction, so it never raises. -/
def isSystemInNetwork (ip network : String) : Bool :=
  match parseAddr ip, parseAddr network with
  | some (.v4 i), some (.v4 n) => classfulMember i n
  | _, _ => false

/-- The network's own address under the classful mask of `n`. -/
def networkAddressOf (n : IPv4) : IPv4 :=
  if n.a < 128 then ⟨n.a, 0, 0, 0⟩
  else if n.a < 192 then ⟨n.a, n.b, 0, 0⟩
  else ⟨n.a, n.b, n.c, 0⟩

/-- The broadcast address of `n`'s classful subnet. -/
def broadcastAddressOf (n : IPv4) : IPv4 :=
  if n.a < 128 then ⟨n.a, 255, 255, 255⟩
  else if n.a < 192 then ⟨n.a, n.b, 255, 255⟩
  else ⟨n.a, n.b, n.c, 255⟩

/-- The network address of the next (one-away) classful subnet. -/
def oneSubnetAway (n : IPv4) : IPv4 :=
  if n.a < 128 then ⟨n.a + 1, 0, 0, 0⟩
  else if n.a < 192 then ⟨n.a, n.b + 1, 0, 0⟩
  else ⟨n.a, n.b, n.c + 1, 0⟩

/-- The observable outcome of one HTTP round trip whose decoded body, when a
response arrives at all, has type `β`: either building the request failed,
or the transport failed, or a response with a numeric status and a body came
back.  This is the boundary that the repository's tests drive with
`httptest` servers and a patched HTTP client. -/
inductive HttpOutcome (β : Type) where
  | reqError (msg : String)
  | transportError (msg : String)
  | response (status : Nat) (body : β)

/-- Mirrors `SumaApiResultSystemGetID` of `type.go`: one match of the
get-system-ID lookup. -/
structure SumaApiResultSystemGetID where
  id : Int
  name : String
deriving DecidableEq, Repr

/-- Mirrors `SumaApiResponseSystemGetID` of `type.go`: the decoded JSON
envelope of the get-system-ID lookup, a success flag and the collection of
matches. -/
structure SumaApiResponseSystemGetID where
  success : Bool
  result : List SumaApiResultSystemGetID
deriving DecidableEq, Repr

/-- Modelled from the spec: `sumaGetSystemID` (spec 4.3), whose production
body is not among the available sources.  The HTTP round trip is passed in
as an `HttpOutcome` whose body is `none` when the JSON is malformed.  A
request-construction or transport failure, a non-success HTTP status, a
decode failure, and an empty match collection each yield `(-1, some error)`;
a non-empty match collection yields the first match's identifier and no
error. -/
def sumaGetSystemID
    (outcome : HttpOutcome (Option SumaApiResponseSystemGetID)) :
    Int × Option String :=
  match outcome with
  | .reqError msg => (-1, some msg)
  | .transportError msg => (-1, some msg)
  | .response status body =>
    if status = 200 then
      match body with
      | none => (-1, some "error unmarshal response")
      | some resp =>
        match resp.result with
        | [] => (-1, some "system not found")
        | m :: _ => (m.id, none)
    else (-1, some "http request failed")

/-- One cookie of an HTTP response. -/
structure HttpCookie where
  name : String
  value : String
deriving DecidableEq, Repr

/-- Modelled from the spec: the cookie-variant `SumaLogin` (spec 4.2,
variant A), whose production body is not among the available sources.  The
authentication round trip is passed in as an `HttpOutcome` carrying the
response cookies.  A transport-level failure or a non-success status yields
an error; on success the cookies are scanned for the session cookie named
`pxt-session-cookie`, and when it is absent the call soft-fails: empty
token, no error. -/
def SumaLogin (outcome : HttpOutcome (List HttpCookie)) :
    String × Option String :=
  match outcome with
  | .reqError msg => ("", some msg)
  | .transportError msg => ("", some msg)
  | .response status cookies =>
    if status = 200 then
      match cookies.find? (fun c => c.name == "pxt-session-cookie") with
      | some c => (c.value, none)
      | none => ("", none)
    else ("", some "http request failed")

/-- The observable result of a guarded mutation workflow: the numeric
status it returns, the error it returns, and whether the mutating HTTP
request was issued at all (the fact the repository's tests observe with a
`called` flag on the test server). -/
structure WorkflowResult where
  status : Int
  error : Option String
  mutationIssued : Bool
deriving DecidableEq, Repr

/-- Modelled from the spec: `SumaAddSystem` (spec 4.5, `addSystemToGroup`),
whose production body is not among the available sources.  Its swappable
dependency bindings — `sumaGetSystemID`, `sumaGetSystemIP` and the network
classifier, which the tests replace with mocks — are parameters, as is the
`(status, error)` outcome of the group-membership mutation request.  Steps:
resolve hostname to ID, then ID to IP, each failure returning (-1, error)
at once; classify the IP against `network`, a negative verdict returning
(-1, "system not in network") without the mutating call; otherwise issue
the mutation and return its status and error. -/
def SumaAddSystem (resolveID : Except String Int)
    (resolveIP : Int → Except String String)
    (classify : String → String → Bool) (network : String)
    (post : Int × Option String) : WorkflowResult :=
  match resolveID with
  | .error e => ⟨-1, some e, false⟩
  | .ok sid =>
    match resolveIP sid with
    | .error e => ⟨-1, some e, false⟩
    | .ok ip =>
      if classify ip network then ⟨post.1, post.2, true⟩
      else ⟨-1, some "system not in network", false⟩

/-- Modelled from the spec: `sumaRemoveSystemGroup` (spec 4.5,
`removeSystemGroup`), whose production body is not among the available
sources.  Its swappable existence-check binding `sumaCheckSystemGroup`
(mocked by the tests) is passed in as the boolean `groupExists`, and the
HTTP status the delete request would return as `deleteStatus`.  An absent
group returns (200, nil) without any HTTP call; a present group gets the
delete request, whose non-success status yields (-1, error). -/
def sumaRemoveSystemGroup (groupExists : Bool) (deleteStatus : Nat) :
    WorkflowResult :=
  if groupExists then
    if deleteStatus = 200 then ⟨200, none, true⟩
    else ⟨-1, some "error delete system group", true⟩
  else ⟨200, none, false⟩

/-- Modelled from the spec: `SumaAddUser` (spec 4.5, `addUser`), whose
production body is not among the available sources.  Its swappable
existence-check binding `sumaCheckUser` (mocked by the tests) is passed in
as the boolean `userExists`, and the HTTP status of the create request as
`createStatus`.  An existing user skips the create call and reports
success; otherwise the create call is issued and its HTTP status is
surfaced verbatim, with an error when it is not a success. -/
def SumaAddUser (userExists : Bool) (createStatus : Nat) : WorkflowResult :=
  if userExists then ⟨200, none, false⟩
  else if createStatus = 200 then ⟨(createStatus : Int), none, true⟩
  else ⟨(createStatus : Int), some "error create user", true⟩

/-- The observable result of the remove-user workflow: the error it returns
and whether the delete-user HTTP request was issued. -/
structure RemoveUserResult where
  error : Option String
  deleteIssued : Bool
deriving DecidableEq, Repr

/-- Modelled from the spec: `SumaRemoveUser` (spec 4.5, `removeUser`), whose
production body is not among the available sources.  Its swappable
dependency bindings (mocked by the tests) are passed in: `removeGroup` is
the `(status, error)` outcome of the group-removal workflow invoked first,
`userExists` the answer of the user existence check, `deleteStatus` the
HTTP status of the delete-user request.  An error from the group removal is
propagated verbatim with no delete call; after a successful group removal
the delete-user request is issued only when the user still exists, and an
absent user is reported as success with no call. -/
def SumaRemoveUser (removeGroup : Int × Option String) (userExists : Bool)
    (deleteStatus : Nat) : RemoveUserResult :=
  match removeGroup.2 with
  | some e => ⟨some e, false⟩
  | none =>
    if userExists then
      if deleteStatus = 200 then ⟨none, true⟩
      else ⟨some "error delete user", true⟩
    else ⟨none, false⟩

/-- Modelled from the spec: `MsDeleteBuildingBlock` (spec section 6, delete
resource row), whose production body is not among the available sources.
The DELETE round trip is passed in as an `HttpOutcome` (the body is
irrelevant).  The call succeeds — returns no error — only when the HTTP
status is exactly 200; any other status, 204 No Content included, and any
transport-level failure yield an error. -/
def MsDeleteBuildingBlock (outcome : HttpOutcome Unit) : Option String :=
  match outcome with
  | .reqError msg => some msg
  | .transportError msg => some msg
  | .response status _ =>
    if status = 200 then none
    else some "error delete building block"

theorem classfulMember_networkAddress (n : IPv4) :
    classfulMember (networkAddressOf n) n = true := by
  by_cases h1 : n.a < 128
  · simp [classfulMember, networkAddressOf, h1]
  · by_cases h2 : n.a < 192 <;> simp [classfulMember, networkAddressOf, h1, h2]

theorem classfulMember_broadcastAddress (n : IPv4) :
    classfulMember (broadcastAddressOf n) n = true := by
  by_cases h1 : n.a < 128
  · simp [classfulMember, broadcastAddressOf, h1]
  · by_cases h2 : n.a < 192 <;> simp [classfulMember, broadcastAddressOf, h1, h2]

theorem classfulMember_oneSubnetAway (n : IPv4) :
    classfulMember (oneSubnetAway n) n = false := by
  by_cases h1 : n.a < 128
  · simp [classfulMember, oneSubnetAway, h1, Nat.succ_ne_self]
  · by_cases h2 : n.a < 192 <;>
      simp [classfulMember, oneSubnetAway, h1, h2, Nat.succ_ne_self]

/-- C2. For every pair of input strings, `isSystemInNetwork` returns false
(and, being a total function, never raises) whenever either string fails to
parse as an IP address literal or the two parsed addresses belong to
different address families. -/
theorem isSystemInNetwork_fails_closed (ip network : String)
    (h : parseAddr ip = none ∨ parseAddr network = none ∨
      (parseAddr ip).map IPAddr.family ≠ (parseAddr network).map IPAddr.family) :
    isSystemInNetwork ip network = false := by
  cases hip : parseAddr ip with
  | none => simp [isSystemInNetwork, hip]
  | some ai =>
    cases hnet : parseAddr network with
    | none =>
      cases ai with
      | v4 i => simp [isSystemInNetwork, hip, hnet]
      | v6 => simp [isSystemInNetwork, hip, hnet]
    | some an =>
      cases ai with
      | v6 =>
        cases an with
        | v4 n => simp [isSystemInNetwork, hip, hnet]
        | v6 => simp [isSystemInNetwork, hip, hnet]
      | v4 i =>
        cases an with
        | v6 => simp [isSystemInNetwork, hip, hnet]
        | v4 n =>
          exfalso
          rcases h with h | h | h
          · rw [hip] at h; exact Option.noConfusion h
          · rw [hnet] at h; exact Option.noConfusion h
          · rw [hip, hnet] at h
            simp [IPAddr.family] at h

/-- Concrete instances of C2: an unparseable ip literal, an unparseable
network literal, and a family mismatch in each direction. -/
theorem isSystemInNetwork_fails_closed_witness :
    isSystemInNetwork "not.an.ip" "192.168.1.0" = false ∧
    isSystemInNetwork "192.168.1.10" "not.a.network" = false ∧
    isSystemInNetwork "2001:db8::1" "192.168.1.0" = false ∧
    isSystemInNetwork "192.168.1.10" "2001:db8::" = false :=
  ⟨isSystemInNetwork_fails_closed _ _ (Or.inl (by decide)),
   isSystemInNetwork_fails_closed _ _ (Or.inr (Or.inl (by decide))),
   isSystemInNetwork_fails_closed _ _ (Or.inr (Or.inr (by decide))),
   isSystemInNetwork_fails_closed _ _ (Or.inr (Or.inr (by decide)))⟩

/-- C3. For every valid IPv4 ip/network pair in the same class and subnet,
`isSystemInNetwork` returns true when the ip is the network's own address
and when it is the subnet's broadcast address, and returns false for the
address one subnet away. -/
theorem isSystemInNetwork_classful_boundaries
    (network ipNet ipBcast ipAway : String) (n : IPv4)
    (hn : parseIPv4 network = some n) :
    (parseIPv4 ipNet = some (networkAddressOf n) →
      isSystemInNetwork ipNet network = true) ∧
    (parseIPv4 ipBcast = some (broadcastAddressOf n) →
      isSystemInNetwork ipBcast network = true) ∧
    (parseIPv4 ipAway = some (oneSubnetAway n) →
      isSystemInNetwork ipAway network = false) := by
  refine ⟨fun h => ?_, fun h => ?_, fun h => ?_⟩ <;>
    simp [isSystemInNetwork, parseAddr, h, hn, classfulMember_networkAddress,
      classfulMember_broadcastAddress, classfulMember_oneSubnetAway]

/-- Concrete instance of C3 on the class-C network 192.168.1.0: its own
address and its broadcast address are members, and the address one subnet
away is not. -/
theorem isSystemInNetwork_classful_boundaries_witness :
    isSystemInNetwork "192.168.1.0" "192.168.1.0" = true ∧
    isSystemInNetwork "192.168.1.255" "192.168.1.0" = true ∧
    isSystemInNetwork "192.168.2.0" "192.168.1.0" = false := by
  obtain ⟨h1, h2, h3⟩ :=
    isSystemInNetwork_classful_boundaries "192.168.1.0" "192.168.1.0"
      "192.168.1.255" "192.168.2.0" ⟨192, 168, 1, 0⟩ (by decide)
  exact ⟨h1 (by decide), h2 (by decide), h3 (by decide)⟩

/-- C1. Whenever the hostname resolves to a system ID, that ID resolves to
an IP, and the network classifier reports the IP outside the target
network, `SumaAddSystem` returns status -1 with an error and never issues
the group-membership mutation request. -/
theorem sumaAddSystem_not_in_network
    (resolveID : Except String Int) (resolveIP : Int → Except String String)
    (classify : String → String → Bool) (network : String)
    (post : Int × Option String) (sid : Int) (ip : String)
    (hid : resolveID = .ok sid) (hip : resolveIP sid = .ok ip)
    (hcl : classify ip network = false) :
    SumaAddSystem resolveID resolveIP classify network post =
      ⟨-1, some "system not in network", false⟩ := by
  subst hid
  simp [SumaAddSystem, hip, hcl]

/-- Concrete instance of C1 with the inputs of the repository's
not-in-network test: ID 42, IP 10.0.0.1, a classifier answering false. -/
theorem sumaAddSystem_not_in_network_witness :
    SumaAddSystem (.ok 42) (fun _ => .ok "10.0.0.1") (fun _ _ => false)
      "192.168.1.0" (200, none) =
      ⟨-1, some "system not in network", false⟩ :=
  sumaAddSystem_not_in_network _ _ _ _ _ 42 "10.0.0.1" rfl rfl rfl

/-- C4. On a success response that decodes, `sumaGetSystemID` fails with a
not-found error when the match collection is empty — even with the success
flag true — and returns the first match's identifier with no error when the
collection is non-empty. -/
theorem sumaGetSystemID_matches (resp : SumaApiResponseSystemGetID) :
    (resp.result = [] → resp.success = true →
      (sumaGetSystemID (.response 200 (some resp))).1 = -1 ∧
      ((sumaGetSystemID (.response 200 (some resp))).2).isSome = true) ∧
    (∀ m ms, resp.result = m :: ms →
      sumaGetSystemID (.response 200 (some resp)) = (m.id, none)) := by
  constructor
  · intro h _
    simp [sumaGetSystemID, h]
  · intro m ms h
    simp [sumaGetSystemID, h]

/-- Concrete instances of C4: the empty and the singleton match collection
of the repository's get-system-ID tests. -/
theorem sumaGetSystemID_matches_witness :
    (sumaGetSystemID (.response 200 (some ⟨true, []⟩))).1 = -1 ∧
    sumaGetSystemID (.response 200 (some ⟨true, [⟨42, "testhost"⟩]⟩)) =
      (42, none) :=
  ⟨((sumaGetSystemID_matches ⟨true, []⟩).1 rfl rfl).1,
   (sumaGetSystemID_matches ⟨true, [⟨42, "testhost"⟩]⟩).2 ⟨42, "testhost"⟩ [] rfl⟩

/-- C10. Whenever `sumaGetSystemID` returns an error — empty match
collection, non-success HTTP status, malformed JSON, or request-construction
failure — the identifier it returns is exactly -1. -/
theorem sumaGetSystemID_error_id
    (outcome : HttpOutcome (Option SumaApiResponseSystemGetID))
    (h : (sumaGetSystemID outcome).2 ≠ none) :
    (sumaGetSystemID outcome).1 = -1 := by
  cases outcome with
  | reqError msg => rfl
  | transportError msg => rfl
  | response status body =>
    by_cases hs : status = 200
    · subst hs
      cases body with
      | none => rfl
      | some resp =>
        cases hr : resp.result with
        | nil => simp [sumaGetSystemID, hr]
        | cons m ms =>
          exfalso
          apply h
          simp [sumaGetSystemID, hr]
    · simp [sumaGetSystemID, hs]

/-- Concrete instance of C10: a request-construction failure (the invalid
URL of the repository's request-error test) returns identifier -1. -/
theorem sumaGetSystemID_error_id_witness :
    (sumaGetSystemID (.reqError "invalid URL")).1 = -1 :=
  sumaGetSystemID_error_id (.reqError "invalid URL") (by simp [sumaGetSystemID])

/-- C5. `sumaRemoveSystemGroup` returns (200, nil) without issuing any HTTP
request when the existence check reports the group absent; when the group
is present it issues the delete request, and a non-success status on that
delete yields status -1 with an error. -/
theorem sumaRemoveSystemGroup_behavior (deleteStatus : Nat) :
    sumaRemoveSystemGroup false deleteStatus = ⟨200, none, false⟩ ∧
    (sumaRemoveSystemGroup true deleteStatus).mutationIssued = true ∧
    (deleteStatus ≠ 200 →
      (sumaRemoveSystemGroup true deleteStatus).status = -1 ∧
      ((sumaRemoveSystemGroup true deleteStatus).error).isSome = true) := by
  by_cases h : deleteStatus = 200 <;>
    simp [sumaRemoveSystemGroup, h]

/-- Concrete instance of C5 with the delete call failing with status 500,
as in the repository's remove-system-group test. -/
theorem sumaRemoveSystemGroup_behavior_witness :
    sumaRemoveSystemGroup false 500 = ⟨200, none, false⟩ ∧
    (sumaRemoveSystemGroup true 500).status = -1 := by
  obtain ⟨h1, _, h3⟩ := sumaRemoveSystemGroup_behavior 500
  exact ⟨h1, (h3 (by decide)).1⟩

/-- C6. `SumaAddUser` skips the create call and reports success (200, no
error) for an existing login; for an absent login it issues the create call
and returns its HTTP status verbatim, with an error on failure statuses. -/
theorem sumaAddUser_behavior (createStatus : Nat) :
    SumaAddUser true createStatus = ⟨200, none, false⟩ ∧
    (SumaAddUser false createStatus).status = (createStatus : Int) ∧
    (SumaAddUser false createStatus).mutationIssued = true ∧
    (createStatus ≠ 200 →
      ((SumaAddUser false createStatus).error).isSome = true) := by
  by_cases h : createStatus = 200 <;>
    simp [SumaAddUser, h]

/-- Concrete instance of C6 with the create call failing with status 500,
as in the repository's add-user test: the status is surfaced verbatim. -/
theorem sumaAddUser_behavior_witness :
    SumaAddUser true 500 = ⟨200, none, false⟩ ∧
    (SumaAddUser false 500).status = 500 ∧
    ((SumaAddUser false 500).error).isSome = true := by
  obtain ⟨h1, h2, _, h4⟩ := sumaAddUser_behavior 500
  exact ⟨h1, h2, h4 (by decide)⟩

/-- C7. The cookie-variant `SumaLogin`, on a success response that omits the
`pxt-session-cookie` session cookie, returns an empty token with no error;
on a non-success HTTP status it returns an error. -/
theorem sumaLogin_cookie_semantics (cookies : List HttpCookie)
    (status : Nat) (body : List HttpCookie)
    (hc : ∀ c ∈ cookies, c.name ≠ "pxt-session-cookie")
    (hs : status ≠ 200) :
    SumaLogin (.response 200 cookies) = ("", none) ∧
    ((SumaLogin (.response status body)).2).isSome = true := by
  constructor
  · have hfind : cookies.find? (fun c => c.name == "pxt-session-cookie") = none := by
      rw [List.find?_eq_none]
      intro c hcmem
      simpa using hc c hcmem
    simp [SumaLogin, hfind]
  · simp [SumaLogin, hs]

/-- Concrete instance of C7: a success response whose only cookie has a
different name gives an empty token and no error, and a 500 response gives
an error. -/
theorem sumaLogin_cookie_semantics_witness :
    SumaLogin (.response 200 [⟨"other-cookie", "v"⟩]) = ("", none) ∧
    ((SumaLogin (.response 500 [])).2).isSome = true := by
  exact sumaLogin_cookie_semantics [⟨"other-cookie", "v"⟩] 500 [] (by decide) (by decide)

/-- C8. `SumaRemoveUser` propagates a group-removal error verbatim without
issuing the delete-user request; it issues the delete-user request exactly
when the group removal succeeded and the user still exists; and it reports
success without any delete-user call when the user is absent after the
group removal. -/
theorem sumaRemoveUser_sequence (removeGroup : Int × Option String)
    (userExists : Bool) (deleteStatus : Nat) :
    (∀ e, removeGroup.2 = some e →
      SumaRemoveUser removeGroup userExists deleteStatus = ⟨some e, false⟩) ∧
    (removeGroup.2 = none →
      (SumaRemoveUser removeGroup userExists deleteStatus).deleteIssued =
        userExists) ∧
    (removeGroup.2 = none → userExists = false →
      SumaRemoveUser removeGroup userExists deleteStatus = ⟨none, false⟩) := by
  refine ⟨fun e he => ?_, fun hn => ?_, fun hn hu => ?_⟩
  · simp [SumaRemoveUser, he]
  · cases userExists <;>
      by_cases hd : deleteStatus = 200 <;>
        simp [SumaRemoveUser, hn, hd]
  · simp [SumaRemoveUser, hn, hu]

/-- Concrete instances of C8: the group-removal error of the repository's
remove-user test is propagated with no delete call; with a successful group
removal, the delete call is issued exactly when the user exists, and an
absent user yields success without a call. -/
theorem sumaRemoveUser_sequence_witness :
    SumaRemoveUser (-1, some "remove group error") true 200 =
      ⟨some "remove group error", false⟩ ∧
    (SumaRemoveUser (200, none) true 200).deleteIssued = true ∧
    SumaRemoveUser (200, none) false 200 = ⟨none, false⟩ :=
  ⟨(sumaRemoveUser_sequence (-1, some "remove group error") true 200).1
      "remove group error" rfl,
   (sumaRemoveUser_sequence (200, none) true 200).2.1 rfl,
   (sumaRemoveUser_sequence (200, none) false 200).2.2 rfl rfl⟩

/-- C9. `MsDeleteBuildingBlock` succeeds (returns no error) if and only if
the HTTP response status is exactly 200; in particular a 204 No Content
response yields an error. -/
theorem msDeleteBuildingBlock_success_iff_200 (status : Nat) :
    (MsDeleteBuildingBlock (.response status ()) = none ↔ status = 200) ∧
    (MsDeleteBuildingBlock (.response 204 ())).isSome = true := by
  constructor
  · by_cases h : status = 200 <;> simp [MsDeleteBuildingBlock, h]
  · rfl

/-- Concrete instances of C9: status 200 succeeds, statuses 204 and 404
fail, as in the repository's delete-building-block test. -/
theorem msDeleteBuildingBlock_success_iff_200_witness :
    MsDeleteBuildingBlock (.response 200 ()) = none ∧
    (MsDeleteBuildingBlock (.response 204 ())).isSome = true ∧
    (MsDeleteBuildingBlock (.response 404 ()) = none → False) :=
  ⟨(msDeleteBuildingBlock_success_iff_200 200).1.mpr rfl,
   (msDeleteBuildingBlock_success_iff_200 204).2,
   fun h => by
     have := (msDeleteBuildingBlock_success_iff_200 404).1.mp h
     exact absurd this (by decide)⟩
